import Mathlib

/-!
Verification of the codegen core of the mcp-playwright repository.

The main source file embedded here is the PlaywrightGenerator class
(src/tools/codegen/generator.ts): option validation, action-to-step
rendering, plain and page-object test code generation, locator-name
derivation from CSS selectors, and output path construction.  The
visible-page query tools (src/tools/browser/visiblePage.ts) are not in
the source tree, only their tests; they are modelled from the spec.

Modelling conventions:
  - JavaScript runtime values appearing in untyped positions (the
    options object fields, which the source validates dynamically) are
    modelled by the JSVal type with JS truthiness.
  - Action parameter values are the string-valued keys the generator
    destructures; a missing key is none, and template interpolation of
    a missing key produces the text "undefined" as in JS.
  - Template literals become explicit string concatenations, in source
    order.  Literal brace characters in generated code are written with
    the escapes \x7b and \x7d, and single quotes as \x27.
  - Node path.resolve is modelled for POSIX paths without "."/".."
    normalization (no input in this code base produces those): segments
    are joined left to right, an absolute segment restarts the path and
    a relative result is resolved against the current working directory,
    which is passed explicitly.
  - new Date(ms).toISOString().split with the T separator is modelled by
    isoDatePart, the proleptic Gregorian date of a nonnegative Unix
    millisecond timestamp.
-/

namespace MCP

/-- A JavaScript runtime value in one of the shapes relevant to the
dynamically validated options object. -/
inductive JSVal where
  | undef
  | str (s : String)
  | num (n : Int)
  | bool (b : Bool)
  deriving DecidableEq

/-- JS truthiness of a JSVal. -/
def JSVal.truthy : JSVal → Bool
  | .undef => false
  | .str s => !(s == "")
  | .num n => !(n == 0)
  | .bool b => b

/-- typeof v === "string". -/
def JSVal.isString : JSVal → Bool
  | .str _ => true
  | _ => false

/-- typeof v === "boolean". -/
def JSVal.isBool : JSVal → Bool
  | .bool _ => true
  | _ => false

/-- The language option: "typescript" or "javascript". -/
inductive Lang where
  | typescript
  | javascript
  deriving DecidableEq

/-- The template option: "plain" or "pom". -/
inductive Template where
  | plain
  | pom
  deriving DecidableEq

/-- The effective (fully defaulted, well-typed) options held by the
generator after construction: Required of CodegenOptions. -/
structure CodegenOptions where
  outputPath : String
  testNamePrefix : String
  includeComments : Bool
  language : Lang
  template : Template
  deriving DecidableEq

/-- PlaywrightGenerator.DEFAULT_OPTIONS. -/
def DEFAULT_OPTIONS : CodegenOptions :=
  { outputPath := "tests"
    testNamePrefix := "MCP"
    includeComments := true
    language := .typescript
    template := .pom }

/-- The raw options object passed to the constructor, before dynamic
validation; each field is an arbitrary JS value, with undef standing
for an absent key. -/
structure RawCodegenOptions where
  outputPath : JSVal := .undef
  testNamePrefix : JSVal := .undef
  includeComments : JSVal := .undef
  language : JSVal := .undef
  template : JSVal := .undef
  deriving DecidableEq

/-- PlaywrightGenerator.validateOptions: the chain of dynamic checks run
by the constructor, in source order, throwing on the first failure. -/
def validateOptions (o : RawCodegenOptions) : Except String Unit :=
  if o.outputPath.truthy && !o.outputPath.isString then
    .error "outputPath must be a string"
  else if o.testNamePrefix.truthy && !o.testNamePrefix.isString then
    .error "testNamePrefix must be a string"
  else if !(o.includeComments == .undef) && !o.includeComments.isBool then
    .error "includeComments must be a boolean"
  else if !(o.language == .undef) && !(o.language == .str "typescript")
      && !(o.language == .str "javascript") then
    .error "language must be \x27typescript\x27 or \x27javascript\x27"
  else if !(o.template == .undef) && !(o.template == .str "plain")
      && !(o.template == .str "pom") then
    .error "template must be \x27plain\x27 or \x27pom\x27"
  else
    .ok ()

/-- The object spread in the constructor: defaults overridden by every
provided (non-undef) field.  Provided fields are read at their typed
shape; the downstream generator code only ever runs on well-typed
fields (ill-typed values that survive validation are outside the typed
pipeline and fall back to the default here). -/
def mergeOptions (o : RawCodegenOptions) : CodegenOptions :=
  { outputPath :=
      match o.outputPath with
      | .str s => s
      | _ => DEFAULT_OPTIONS.outputPath
    testNamePrefix :=
      match o.testNamePrefix with
      | .str s => s
      | _ => DEFAULT_OPTIONS.testNamePrefix
    includeComments :=
      match o.includeComments with
      | .bool b => b
      | _ => DEFAULT_OPTIONS.includeComments
    language :=
      match o.language with
      | .str "typescript" => .typescript
      | .str "javascript" => .javascript
      | _ => DEFAULT_OPTIONS.language
    template :=
      match o.template with
      | .str "plain" => .plain
      | .str "pom" => .pom
      | _ => DEFAULT_OPTIONS.template }

/-- The PlaywrightGenerator constructor: validate, then merge over the
defaults. -/
def newPlaywrightGenerator (o : RawCodegenOptions) : Except String CodegenOptions :=
  match validateOptions o with
  | .error e => .error e
  | .ok _ => .ok (mergeOptions o)

/-- The string-valued parameter keys destructured by the step
generators.  A none field models an absent (undefined) key; fullPage is
the one boolean-typed key, defaulted to false as in the source. -/
structure ActionParams where
  url : Option String := none
  waitUntil : Option String := none
  selector : Option String := none
  value : Option String := none
  name : Option String := none
  fullPage : Bool := false
  path : Option String := none
  id : Option String := none
  userAgent : Option String := none
  deriving DecidableEq

/-- A recorded action: tool name, parameters and timestamp. -/
structure CodegenAction where
  toolName : String
  parameters : ActionParams
  timestamp : Nat
  deriving DecidableEq

/-- JS template interpolation of a possibly-undefined string value. -/
def interp : Option String → String
  | some s => s
  | none => "undefined"

/-- JS truthiness of a possibly-undefined string value. -/
def truthyOpt : Option String → Bool
  | some s => !(s == "")
  | none => false

/-- generateNavigateStep. -/
def generateNavigateStep (p : ActionParams) : String :=
  let options :=
    if truthyOpt p.waitUntil then
      ", \x7b waitUntil: \x27" ++ interp p.waitUntil ++ "\x27 \x7d"
    else ""
  "\n    // Navigate to URL\n    await page.goto(\x27" ++ interp p.url
    ++ "\x27" ++ options ++ ");"

/-- generateFillStep. -/
def generateFillStep (p : ActionParams) : String :=
  "\n    // Fill input field\n    await page.fill(\x27" ++ interp p.selector
    ++ "\x27, \x27" ++ interp p.value ++ "\x27);"

/-- generateClickStep. -/
def generateClickStep (p : ActionParams) : String :=
  "\n    // Click element\n    await page.click(\x27" ++ interp p.selector
    ++ "\x27);"

/-- generateScreenshotStep. -/
def generateScreenshotStep (p : ActionParams) : String :=
  let options :=
    (if p.fullPage then ["fullPage: true"] else [])
      ++ (if truthyOpt p.path then ["path: \x27" ++ interp p.path ++ "\x27"] else [])
  let optionsStr :=
    if options.length > 0 then
      ", \x7b " ++ String.intercalate ", " options ++ " \x7d"
    else ""
  "\n    // Take screenshot\n    await page.screenshot(\x7b path: \x27"
    ++ interp p.name ++ ".png\x27" ++ optionsStr ++ " \x7d);"

/-- generateExpectResponseStep. -/
def generateExpectResponseStep (p : ActionParams) : String :=
  "\n    // Wait for response\n    const " ++ interp p.id
    ++ "Response = page.waitForResponse(\x27" ++ interp p.url ++ "\x27);"

/-- generateAssertResponseStep. -/
def generateAssertResponseStep (p : ActionParams) : String :=
  let assertion :=
    if truthyOpt p.value then
      "\n    const responseText = await " ++ interp p.id
        ++ "Response.text();\n    expect(responseText).toContain(\x27"
        ++ interp p.value ++ "\x27);"
    else
      "\n    expect(" ++ interp p.id ++ "Response.ok()).toBeTruthy();"
  "\n    // Assert response" ++ assertion

/-- generateHoverStep. -/
def generateHoverStep (p : ActionParams) : String :=
  "\n    // Hover over element\n    await page.hover(\x27" ++ interp p.selector
    ++ "\x27);"

/-- generateSelectStep. -/
def generateSelectStep (p : ActionParams) : String :=
  "\n    // Select option\n    await page.selectOption(\x27" ++ interp p.selector
    ++ "\x27, \x27" ++ interp p.value ++ "\x27);"

/-- generateCustomUserAgentStep. -/
def generateCustomUserAgentStep (p : ActionParams) : String :=
  "\n    // Set custom user agent\n    await context.setUserAgent(\x27"
    ++ interp p.userAgent ++ "\x27);"

/-- convertActionToStep: the switch on action.toolName, rendered as the
equivalent chain of equality tests; the default branch logs a warning
and returns null. -/
def convertActionToStep (action : CodegenAction) : Option String :=
  if action.toolName = "playwright_navigate" then
    some (generateNavigateStep action.parameters)
  else if action.toolName = "playwright_fill" then
    some (generateFillStep action.parameters)
  else if action.toolName = "playwright_click" then
    some (generateClickStep action.parameters)
  else if action.toolName = "playwright_screenshot" then
    some (generateScreenshotStep action.parameters)
  else if action.toolName = "playwright_expect_response" then
    some (generateExpectResponseStep action.parameters)
  else if action.toolName = "playwright_assert_response" then
    some (generateAssertResponseStep action.parameters)
  else if action.toolName = "playwright_hover" then
    some (generateHoverStep action.parameters)
  else if action.toolName = "playwright_select" then
    some (generateSelectStep action.parameters)
  else if action.toolName = "playwright_custom_user_agent" then
    some (generateCustomUserAgentStep action.parameters)
  else
    none

/-- The nine tool names with a case in convertActionToStep. -/
def recognizedTools : List String :=
  [ "playwright_navigate", "playwright_fill", "playwright_click",
    "playwright_screenshot", "playwright_expect_response",
    "playwright_assert_response", "playwright_hover",
    "playwright_select", "playwright_custom_user_agent" ]

/-- Civil (proleptic Gregorian) date of a day count since 1970-01-01,
for nonnegative day counts: year, month, day. -/
def civilFromDays (z0 : Nat) : Nat × Nat × Nat :=
  let z := z0 + 719468
  let era := z / 146097
  let doe := z % 146097
  let yoe := (doe - doe / 1460 + doe / 36524 - doe / 146096) / 365
  let y := yoe + era * 400
  let doy := doe - (365 * yoe + yoe / 4 - yoe / 100)
  let mp := (5 * doy + 2) / 153
  let d := doy - (153 * mp + 2) / 5 + 1
  let m := if mp < 10 then mp + 3 else mp - 9
  (if m ≤ 2 then y + 1 else y, m, d)

/-- Zero-pad a number to two digits. -/
def pad2 (n : Nat) : String :=
  if n < 10 then "0" ++ toString n else toString n

/-- Zero-pad a number to four digits. -/
def pad4 (n : Nat) : String :=
  if n < 10 then "000" ++ toString n
  else if n < 100 then "00" ++ toString n
  else if n < 1000 then "0" ++ toString n
  else toString n

/-- Models new Date(ms).toISOString() truncated at the T separator: the
UTC calendar date of a nonnegative Unix millisecond timestamp. -/
def isoDatePart (ms : Nat) : String :=
  let c := civilFromDays (ms / 86400000)
  pad4 c.1 ++ "-" ++ pad2 c.2.1 ++ "-" ++ pad2 c.2.2

/-- The derived test case: name, step fragments and import symbols (the
source stores imports in a Set that only ever holds test and expect,
modelled as the insertion-ordered list). -/
structure PlaywrightTestCase where
  name : String
  steps : List String
  imports : List String
  deriving DecidableEq

/-- createTestCase: derived name, then the push loop over actions,
keeping each converted step that is non-null and non-empty (the source
guards with JS truthiness of the step string). -/
def createTestCase (opts : CodegenOptions) (startTime : Nat)
    (actions : List CodegenAction) : PlaywrightTestCase :=
  { name := opts.testNamePrefix ++ "_" ++ isoDatePart startTime
    steps := actions.filterMap (fun a =>
      match convertActionToStep a with
      | some s => if s = "" then none else some s
      | none => none)
    imports := ["test", "expect"] }

/-- generateTestCode: the plain template. -/
def generateTestCode (tc : PlaywrightTestCase) : String :=
  let imports := String.intercalate "\n"
    (tc.imports.map (fun imp => "import \x7b " ++ imp ++ " \x7d from \x27@playwright/test\x27;"))
  "\n" ++ imports ++ "\n\ntest(\x27" ++ tc.name
    ++ "\x27, async (\x7b page, context \x7d) => \x7b\n  "
    ++ String.intercalate "\n" tc.steps ++ "\n\x7d);"

/-- Strip the leading whitespace run of a string: s.replace of the
anchored whitespace-run pattern with the empty string. -/
def stripLeadingWs (s : String) : String :=
  String.mk (s.data.dropWhile Char.isWhitespace)

/-- generatePomTestCode: the page-object template; every step is
re-indented by two spaces after stripping its leading whitespace. -/
def generatePomTestCode (opts : CodegenOptions) (tc : PlaywrightTestCase) : String :=
  let ext := if opts.language = Lang.typescript then "ts" else "js"
  "\nimport \x7b test, expect \x7d from \x27@playwright/test\x27;\nimport \x7b AppPage \x7d from \x27./pages/AppPage."
    ++ ext ++ "\x27;\n\ntest(\x27" ++ tc.name
    ++ "\x27, async (\x7b page \x7d) => \x7b\n  const app = new AppPage(page);\n  await app.goto();\n"
    ++ String.intercalate "\n" (tc.steps.map (fun s => "  " ++ stripLeadingWs s))
    ++ "\n\x7d);"

/-- The character class of the id and class token regexes:
letters, digits, underscore and hyphen. -/
def isSelWord (c : Char) : Bool :=
  c.isAlpha || c.isDigit || c = '_' || c = '-'

/-- Leftmost match of the regex consisting of a marker character
followed by a captured nonempty maximal run of selector word
characters; the id regex is scanToken with the hash marker, the class
regex with the dot marker. -/
def scanToken (mark : Char) : List Char → Option String
  | [] => none
  | c :: rest =>
    if c = mark then
      match rest.takeWhile isSelWord with
      | [] => scanToken mark rest
      | run => some (String.mk run)
    else scanToken mark rest

/-- The literal head of the data-attribute regex. -/
def dataAttrLead : List Char := ['[', 'd', 'a', 't', 'a', '-']

/-- Quote characters admitted around the data-attribute value. -/
def isQuoteCh (c : Char) : Bool := c = '\x27' || c = '"'

/-- A character admitted inside the captured data-attribute value:
anything except a quote or a closing bracket. -/
def isDataValCh (c : Char) : Bool := !(c = '\x27' || c = '"' || c = ']')

/-- Match the tail of the data-attribute regex after the equals sign:
an optional quote, the captured nonempty value run, an optional quote,
and the closing bracket.  The greedy capture run stops at the first
quote or bracket; per the backtracking analysis of the regex, a match
survives exactly when the run is nonempty and is followed either by the
closing bracket directly or by one quote and then the bracket. -/
def dataValueTail (cs : List Char) : Option String :=
  let afterQuote := match cs with
    | c :: rest => if isQuoteCh c then rest else cs
    | [] => []
  let run := afterQuote.takeWhile isDataValCh
  if run = [] then none
  else
    match afterQuote.drop run.length with
    | ']' :: _ => some (String.mk run)
    | c :: ']' :: _ => if isQuoteCh c then some (String.mk run) else none
    | _ => none

/-- Try the data-attribute regex anchored at the head of the list: the
literal lead, a nonempty run without an equals sign, the equals sign,
then the value tail. -/
def tryDataAttr (cs : List Char) : Option String :=
  if dataAttrLead.isPrefixOf cs then
    let rest := cs.drop 6
    let run1 := rest.takeWhile (fun c => !(c = '='))
    if run1 = [] then none
    else
      match rest.drop run1.length with
      | '=' :: afterEq => dataValueTail afterEq
      | _ => none
  else none

/-- Leftmost match of the data-attribute regex. -/
def scanDataAttr : List Char → Option String
  | [] => none
  | c :: rest =>
    match tryDataAttr (c :: rest) with
    | some v => some v
    | none => scanDataAttr rest

/-- deriveLocatorName: id token first, then data-attribute value, then
class token, then the fixed fallback. -/
def deriveLocatorName (selector : String) : String :=
  match scanToken '#' selector.data with
  | some x => x ++ "Locator"
  | none =>
    match scanDataAttr selector.data with
    | some v => v ++ "Locator"
    | none =>
      match scanToken '.' selector.data with
      | some c => c ++ "Locator"
      | none => "elementLocator"

/-- Models Node path.resolve for POSIX paths without "."/".."
normalization: segments joined left to right, an absolute segment
restarting the path, empty segments skipped, and a relative result
resolved against the working directory cwd. -/
def pathResolve (cwd : String) (segs : List String) : String :=
  let joined := segs.foldl
    (fun acc s =>
      if s.startsWith "/" then s
      else if s = "" then acc
      else if acc = "" then s
      else acc ++ "/" ++ s) ""
  if joined.startsWith "/" then joined
  else if joined = "" then cwd
  else if cwd = "" then joined
  else cwd ++ "/" ++ joined

/-- The per-character sanitization of the file name: characters outside
lowercase letters, digits and underscore become underscore. -/
def sanitizeChar (c : Char) : Char :=
  if c.isLower || c.isDigit || c = '_' then c else '_'

/-- testNamePrefix.toLowerCase().replace of every character outside the
lowercase-word class with an underscore (ASCII lowercasing). -/
def sanitizeName (s : String) : String :=
  String.mk ((s.data.map Char.toLower).map sanitizeChar)

/-- getOutputFilePath: rejects a falsy session id, then resolves the
sanitized-prefixed spec file name under the configured output path. -/
def getOutputFilePath (opts : CodegenOptions) (cwd : String) (id : String) :
    Except String String :=
  if id = "" then .error "Session ID is required"
  else
    let pfx := sanitizeName opts.testNamePrefix
    .ok (pathResolve cwd [opts.outputPath, pfx ++ "_" ++ id ++ ".spec.ts"])

/-- A generated auxiliary file: output path and content. -/
structure GeneratedFile where
  path : String
  content : String
  deriving DecidableEq

/-- The selector map building loop of generatePageObject: first
selector wins per derived locator name, insertion order kept, falsy
(empty) selectors skipped. -/
def collectSelectors (actions : List CodegenAction) : List (String × String) :=
  actions.foldl
    (fun m a =>
      match a.parameters.selector with
      | some sel =>
        if sel = "" then m
        else
          let key := deriveLocatorName sel
          if (m.lookup key).isSome then m else m ++ [(key, sel)]
      | none => m) []

/-- generatePageObject: the AppPage class source and its output path. -/
def generatePageObject (opts : CodegenOptions) (cwd : String)
    (actions : List CodegenAction) : GeneratedFile :=
  let ext := if opts.language = Lang.typescript then "ts" else "js"
  let pageClassHeader :=
    if opts.language = Lang.typescript then
      "import type \x7b Page \x7d from \x27@playwright/test\x27;\n\nexport class AppPage \x7b\n  readonly page: Page;\n  constructor(page: Page) \x7b\n    this.page = page;\n  \x7d\n"
    else
      "export class AppPage \x7b\n  /** @param \x7bimport(\x27@playwright/test\x27).Page\x7d page */\n  constructor(page) \x7b\n    this.page = page;\n  \x7d\n"
  let locators := String.intercalate "\n"
    ((collectSelectors actions).map
      (fun e => "  " ++ e.1 ++ " = \x27" ++ e.2 ++ "\x27;"))
  let methods :=
    "\n  async goto(url) \x7b\n    if (url) \x7b\n      await this.page.goto(url);\n    \x7d\n  \x7d\n\n  async click(selector) \x7b\n    const target = selector ?? this.safe(\x27primaryButton\x27);\n    await this.page.locator(target).click(\x7b timeout: 10000 \x7d);\n  \x7d\n\n  async fill(selector, value) \x7b\n    const target = selector ?? this.safe(\x27input\x27);\n    await this.page.locator(target).fill(String(value ?? \x27\x27));\n  \x7d\n\n  async expectVisible(selector) \x7b\n    await this.page.locator(selector).waitFor(\x7b state: \x27visible\x27, timeout: 10000 \x7d);\n  \x7d\n\n  safe(name) \x7b\n    if (!this[name]) throw new Error(\x27Unknown locator: \x27 + name);\n    return this[name];\n  \x7d\n"
  let content := pageClassHeader ++ "\n" ++ locators ++ "\n" ++ methods ++ "\n\x7d\n"
  { path := pathResolve cwd [opts.outputPath, "pages", "AppPage." ++ ext]
    content := content }

/-- Replace every backslash with a forward slash, character-wise: the
testDir normalization in generatePlaywrightConfig. -/
def slashify (s : String) : String :=
  String.mk (s.data.map (fun c => if c = '\\' then '/' else c))

/-- generatePlaywrightConfig: the run-configuration file, resolved
against the working directory alone; the source types the result as
nullable but always returns a file. -/
def generatePlaywrightConfig (opts : CodegenOptions) (cwd : String) :
    Option GeneratedFile :=
  let filename :=
    if opts.language = Lang.typescript then "playwright.config.ts"
    else "playwright.config.js"
  let base :=
    "import \x7b defineConfig \x7d from \x27@playwright/test\x27;\n\nexport default defineConfig(\x7b\n  testDir: \x27"
      ++ slashify opts.outputPath
      ++ "\x27,\n  use: \x7b\n    screenshot: \x27only-on-failure\x27,\n    video: \x27retain-on-failure\x27,\n    trace: \x27on-first-retry\x27\n  \x7d,\n\x7d);\n"
  some { path := pathResolve cwd [filename], content := base }

/-- The session argument of generateTest before its dynamic checks: id,
start time, and the actions value, with none standing for an actions
field that is not an array.  The whole session being null or undefined
is modelled by passing none to generateTest. -/
structure RawSessionData where
  id : String
  startTime : Nat
  actions : Option (List CodegenAction)
  deriving DecidableEq

/-- The result object of generateTest. -/
structure CodegenResult where
  testCode : String
  filePath : String
  sessionId : String
  files : Option (List GeneratedFile)
  deriving DecidableEq

/-- generateTest: reject a falsy session or a non-array actions field,
build the test case, render plain or page-object code, resolve the
output path (which rejects a falsy id), and in page-object mode attach
the page-object file and the run configuration. -/
def generateTest (opts : CodegenOptions) (cwd : String)
    (session : Option RawSessionData) : Except String CodegenResult :=
  match session with
  | none => .error "Invalid session data"
  | some sd =>
    match sd.actions with
    | none => .error "Invalid session data"
    | some acts =>
      let testCase := createTestCase opts sd.startTime acts
      let isPom := opts.template = Template.pom
      let files0 : List GeneratedFile :=
        if isPom then [generatePageObject opts cwd acts] else []
      let testCode :=
        if isPom then generatePomTestCode opts testCase
        else generateTestCode testCase
      match getOutputFilePath opts cwd sd.id with
      | .error e => .error e
      | .ok filePath =>
        let files1 :=
          if isPom then
            match generatePlaywrightConfig opts cwd with
            | some cfg => files0 ++ [cfg]
            | none => files0
          else files0
        .ok { testCode := testCode
              filePath := filePath
              sessionId := sd.id
              files := if files1 = [] then none else some files1 }

/-- A library call the visible-page tools may issue to the underlying
browser-automation library. -/
inductive LibCall where
  | evaluate
  | pageContent
  deriving DecidableEq

/-- Modelled from the spec: the page reference supplied by the host
context to the visible-page tools (src/tools/browser/visiblePage.ts is
not in the source tree, only its tests).  The closed flag is what
page.isClosed() reports; the two outcome fields are what the single
library call of each tool (page.evaluate for visible text, page.content
for HTML) would return or throw. -/
structure PageRef where
  closed : Bool
  evalOutcome : Except String String
  contentOutcome : Except String String

/-- Modelled from the spec: the host-supplied tool context, carrying an
optional page reference and the connectivity of the underlying
browser. -/
structure ToolContext where
  page : Option PageRef
  browserConnected : Bool

/-- Modelled from the spec: the structured result object of a tool
call, carrying a textual payload and a failure flag. -/
structure CallToolResult where
  text : String
  isError : Bool
  deriving DecidableEq

/-- Modelled from the spec: VisibleTextTool.execute.  Guards in order:
page reference exists, browser is connected, page is not closed; each
failing guard yields a structured failure without any library call;
then the one page.evaluate call, whose successful content is wrapped
and whose thrown error is rewrapped with the context-specific message.
The second component records the library calls issued. -/
def visibleTextExecute (ctx : ToolContext) : CallToolResult × List LibCall :=
  match ctx.page with
  | none => ({ text := "Page is not available", isError := true }, [])
  | some pg =>
    if !ctx.browserConnected then
      ({ text := "Browser is not connected", isError := true }, [])
    else if pg.closed then
      ({ text := "Page is not available or has been closed", isError := true }, [])
    else
      match pg.evalOutcome with
      | .ok c =>
        ({ text := "Visible text content:\n" ++ c, isError := false }, [LibCall.evaluate])
      | .error m =>
        ({ text := "Failed to get visible text content: " ++ m, isError := true },
          [LibCall.evaluate])

/-- Modelled from the spec: VisibleHtmlTool.execute with no filter
arguments.  Same guard chain, then the one page.content call. -/
def visibleHtmlExecute (ctx : ToolContext) : CallToolResult × List LibCall :=
  match ctx.page with
  | none => ({ text := "Page is not available", isError := true }, [])
  | some pg =>
    if !ctx.browserConnected then
      ({ text := "Browser is not connected", isError := true }, [])
    else if pg.closed then
      ({ text := "Page is not available or has been closed", isError := true }, [])
    else
      match pg.contentOutcome with
      | .ok c =>
        ({ text := "HTML content:\n" ++ c, isError := false }, [LibCall.pageContent])
      | .error m =>
        ({ text := "Failed to get visible HTML content: " ++ m, isError := true },
          [LibCall.pageContent])

/-- Substring containment: sub occurs contiguously inside t. -/
def strContains (t sub : String) : Prop :=
  sub.data <:+: t.data

instance (t sub : String) : Decidable (strContains t sub) :=
  List.decidableInfix sub.data t.data

/-- The single-quote character. -/
def quoteCh : Char := '\x27'

/-- A character that may sit inside a single-quoted source literal
without breaking it: anything but a quote, a backslash or a newline. -/
def plainLitCh (c : Char) : Bool :=
  !(c = quoteCh) && !(c = '\\') && !(c = '\n')

/-- A well-formed single-quoted literal: an opening quote, an interior
free of quotes, backslashes and raw newlines, and a closing quote. -/
def wellFormedSQ (lit : String) : Bool :=
  match lit.data with
  | c :: rest =>
    c = quoteCh && !(rest = []) && rest.getLast? = some quoteCh
      && rest.dropLast.all plainLitCh
  | [] => false

/-- A parameter value whose interpolation cannot break a single-quoted
literal. -/
def cleanParam (s : String) : Bool :=
  s.data.all plainLitCh

/-- s contains the marker character immediately followed by a selector
word character: the declarative reading of containing an id token
(hash marker) or a class token (dot marker). -/
def hasMarkedToken (mark : Char) (s : String) : Prop :=
  ∃ l c r, s.data = l ++ mark :: c :: r ∧ isSelWord c = true

lemma strContains_parts (P M Q t : String) (h : P ++ M ++ Q = t) :
    strContains t M := by
  subst h
  exact ⟨P.data, Q.data, by simp [strContains, String.data_append]⟩

lemma strContains_right (A M : String) : strContains (A ++ M) M :=
  ⟨A.data, [], by simp [String.data_append]⟩

lemma strContains_left_of (M Q A B : String) (h : M ++ Q = A) :
    strContains (A ++ B) M := by
  subst h
  exact ⟨[], (Q ++ B).data, by simp [String.data_append, List.append_assoc]⟩

lemma strContains_mid1 (P M1 x M2 Q L1 L2 : String)
    (h1 : P ++ M1 = L1) (h2 : M2 ++ Q = L2) :
    strContains (L1 ++ x ++ L2) (M1 ++ x ++ M2) := by
  subst h1; subst h2
  exact ⟨P.data, Q.data, by simp [String.data_append, List.append_assoc]⟩

lemma strContains_mid1' (P M1 x M2 r1 r2 L1 : String)
    (h1 : P ++ M1 = L1) :
    strContains (L1 ++ x ++ M2 ++ r1 ++ r2) (M1 ++ x ++ M2) := by
  subst h1
  exact ⟨P.data, (r1 ++ r2).data, by simp [String.data_append, List.append_assoc]⟩

lemma strContains_mid2 (P M1 x Mm y M2 Q L1 L3 : String)
    (h1 : P ++ M1 = L1) (h2 : M2 ++ Q = L3) :
    strContains (L1 ++ x ++ Mm ++ y ++ L3) (M1 ++ x ++ Mm ++ y ++ M2) := by
  subst h1; subst h2
  exact ⟨P.data, Q.data, by simp [String.data_append, List.append_assoc]⟩

lemma strContains_midEarly (P M1 x M2 Bq r1 r2 L1 B : String)
    (h1 : P ++ M1 = L1) (h2 : M2 ++ Bq = B) :
    strContains (L1 ++ x ++ B ++ r1 ++ r2) (M1 ++ x ++ M2) := by
  subst h1; subst h2
  exact ⟨P.data, (Bq ++ r1 ++ r2).data, by simp [String.data_append, List.append_assoc]⟩

lemma strContains_midLate (A y Bp M1 x M2 Q B C : String)
    (hB : Bp ++ M1 = B) (hC : M2 ++ Q = C) :
    strContains (A ++ y ++ B ++ x ++ C) (M1 ++ x ++ M2) := by
  subst hB; subst hC
  exact ⟨(A ++ y ++ Bp).data, Q.data, by simp [String.data_append, List.append_assoc]⟩

lemma generateNavigateStep_ne_empty (p : ActionParams) :
    ¬ generateNavigateStep p = "" := by
  unfold generateNavigateStep
  intro he
  have hl := congrArg String.length he
  simp only [String.length_append, String.length_empty] at hl
  have h0 : 0 < ("\n    // Navigate to URL\n    await page.goto(\x27" : String).length := by decide
  omega

lemma generateFillStep_ne_empty (p : ActionParams) :
    ¬ generateFillStep p = "" := by
  unfold generateFillStep
  intro he
  have hl := congrArg String.length he
  simp only [String.length_append, String.length_empty] at hl
  have h0 : 0 < ("\n    // Fill input field\n    await page.fill(\x27" : String).length := by decide
  omega

lemma generateClickStep_ne_empty (p : ActionParams) :
    ¬ generateClickStep p = "" := by
  unfold generateClickStep
  intro he
  have hl := congrArg String.length he
  simp only [String.length_append, String.length_empty] at hl
  have h0 : 0 < ("\n    // Click element\n    await page.click(\x27" : String).length := by decide
  omega

lemma generateScreenshotStep_ne_empty (p : ActionParams) :
    ¬ generateScreenshotStep p = "" := by
  unfold generateScreenshotStep
  intro he
  have hl := congrArg String.length he
  simp only [String.length_append, String.length_empty] at hl
  have h0 : 0 < ("\n    // Take screenshot\n    await page.screenshot(\x7b path: \x27" : String).length := by decide
  omega

lemma generateExpectResponseStep_ne_empty (p : ActionParams) :
    ¬ generateExpectResponseStep p = "" := by
  unfold generateExpectResponseStep
  intro he
  have hl := congrArg String.length he
  simp only [String.length_append, String.length_empty] at hl
  have h0 : 0 < ("\n    // Wait for response\n    const " : String).length := by decide
  omega

lemma generateAssertResponseStep_ne_empty (p : ActionParams) :
    ¬ generateAssertResponseStep p = "" := by
  unfold generateAssertResponseStep
  intro he
  have hl := congrArg String.length he
  simp only [String.length_append, String.length_empty] at hl
  have h0 : 0 < ("\n    // Assert response" : String).length := by decide
  omega

lemma generateHoverStep_ne_empty (p : ActionParams) :
    ¬ generateHoverStep p = "" := by
  unfold generateHoverStep
  intro he
  have hl := congrArg String.length he
  simp only [String.length_append, String.length_empty] at hl
  have h0 : 0 < ("\n    // Hover over element\n    await page.hover(\x27" : String).length := by decide
  omega

lemma generateSelectStep_ne_empty (p : ActionParams) :
    ¬ generateSelectStep p = "" := by
  unfold generateSelectStep
  intro he
  have hl := congrArg String.length he
  simp only [String.length_append, String.length_empty] at hl
  have h0 : 0 < ("\n    // Select option\n    await page.selectOption(\x27" : String).length := by decide
  omega

lemma generateCustomUserAgentStep_ne_empty (p : ActionParams) :
    ¬ generateCustomUserAgentStep p = "" := by
  unfold generateCustomUserAgentStep
  intro he
  have hl := congrArg String.length he
  simp only [String.length_append, String.length_empty] at hl
  have h0 : 0 < ("\n    // Set custom user agent\n    await context.setUserAgent(\x27" : String).length := by decide
  omega

lemma convert_ne_empty (a : CodegenAction) (s : String)
    (h : convertActionToStep a = some s) : ¬ s = "" := by
  unfold convertActionToStep at h
  split_ifs at h
  case pos => injection h with hh; subst hh; exact generateNavigateStep_ne_empty _
  case pos => injection h with hh; subst hh; exact generateFillStep_ne_empty _
  case pos => injection h with hh; subst hh; exact generateClickStep_ne_empty _
  case pos => injection h with hh; subst hh; exact generateScreenshotStep_ne_empty _
  case pos => injection h with hh; subst hh; exact generateExpectResponseStep_ne_empty _
  case pos => injection h with hh; subst hh; exact generateAssertResponseStep_ne_empty _
  case pos => injection h with hh; subst hh; exact generateHoverStep_ne_empty _
  case pos => injection h with hh; subst hh; exact generateSelectStep_ne_empty _
  case pos => injection h with hh; subst hh; exact generateCustomUserAgentStep_ne_empty _

lemma createTestCase_steps (opts : CodegenOptions) (startTime : Nat)
    (acts : List CodegenAction) :
    (createTestCase opts startTime acts).steps = acts.filterMap convertActionToStep := by
  simp only [createTestCase]
  apply List.filterMap_congr
  intro a _
  cases h : convertActionToStep a with
  | none => rfl
  | some s => simp [if_neg (convert_ne_empty a s h)]

lemma scanToken_isSome_iff (mark : Char) :
    ∀ cs : List Char, (scanToken mark cs).isSome = true ↔
      ∃ l c r, cs = l ++ mark :: c :: r ∧ isSelWord c = true := by
  intro cs
  induction cs with
  | nil =>
    constructor
    · intro h; simp [scanToken] at h
    · rintro ⟨l, c, r, hl, -⟩
      exact absurd hl (by simp)
  | cons a rest ih =>
    by_cases ha : a = mark
    · rw [ha]
      cases hw : rest.takeWhile isSelWord with
      | nil =>
        have hstep : scanToken mark (mark :: rest) = scanToken mark rest := by
          simp [scanToken, hw]
        rw [hstep, ih]
        constructor
        · rintro ⟨l, c, r, hl, hc⟩
          exact ⟨mark :: l, c, r, by simp [hl], hc⟩
        · rintro ⟨l, c, r, hl, hc⟩
          cases l with
          | nil =>
            simp only [List.nil_append] at hl
            injection hl with h1 h2
            rw [h2, List.takeWhile_cons] at hw
            by_cases hc' : isSelWord c
            · simp [hc'] at hw
            · exact absurd hc (by simp [hc'])
          | cons a' l' =>
            injection hl with h1 h2
            exact ⟨l', c, r, h2, hc⟩
      | cons hd tl =>
        have hstep : scanToken mark (mark :: rest) = some (String.mk (hd :: tl)) := by
          simp [scanToken, hw]
        rw [hstep]
        cases rest with
        | nil => simp [List.takeWhile_nil] at hw
        | cons b bs =>
          rw [List.takeWhile_cons] at hw
          by_cases hb : isSelWord b
          · simp only [hb, if_true] at hw
            injection hw with hw1 hw2
            constructor
            · intro _
              exact ⟨[], b, bs, by simp, by simp [hb]⟩
            · intro _; rfl
          · simp [hb] at hw
    · have hstep : scanToken mark (a :: rest) = scanToken mark rest := by
        simp [scanToken, ha]
      rw [hstep, ih]
      constructor
      · rintro ⟨l, c, r, hl, hc⟩
        exact ⟨a :: l, c, r, by simp [hl], hc⟩
      · rintro ⟨l, c, r, hl, hc⟩
        cases l with
        | nil =>
          simp only [List.nil_append] at hl
          injection hl with h1 h2
          exact absurd h1 ha
        | cons a' l' =>
          injection hl with h1 h2
          exact ⟨l', c, r, h2, hc⟩

lemma scanToken_sound (mark : Char) :
    ∀ cs : List Char, ∀ x : String, scanToken mark cs = some x →
      ∃ l r, cs = l ++ mark :: (x.data ++ r) ∧ ¬ x.data = []
        ∧ x.data.all isSelWord = true := by
  intro cs
  induction cs with
  | nil => intro x h; simp [scanToken] at h
  | cons a rest ih =>
    intro x h
    by_cases ha : a = mark
    · rw [ha] at h ⊢
      cases hw : rest.takeWhile isSelWord with
      | nil =>
        have hstep : scanToken mark (mark :: rest) = scanToken mark rest := by
          simp [scanToken, hw]
        rw [hstep] at h
        obtain ⟨l, r, hl, hne, hall⟩ := ih x h
        exact ⟨mark :: l, r, by simp [hl], hne, hall⟩
      | cons hd tl =>
        have hstep : scanToken mark (mark :: rest) = some (String.mk (hd :: tl)) := by
          simp [scanToken, hw]
        rw [hstep] at h
        injection h with h
        subst h
        refine ⟨[], rest.dropWhile isSelWord, ?_, by simp, ?_⟩
        · simp only [List.nil_append, List.cons.injEq, true_and]
          conv_lhs => rw [← List.takeWhile_append_dropWhile (p := isSelWord) (l := rest)]
          rw [hw]
        · show (hd :: tl).all isSelWord = true
          rw [← hw]
          exact List.all_takeWhile
    · have hstep : scanToken mark (a :: rest) = scanToken mark rest := by
        simp [scanToken, ha]
      rw [hstep] at h
      obtain ⟨l, r, hl, hne, hall⟩ := ih x h
      exact ⟨a :: l, r, by simp [hl], hne, hall⟩

/-- C2: converting an action with a recognized tool name is a
deterministic function of its tool name and parameters alone (the
timestamp is ignored), and for each of the nine recognized tools the
rendered step text contains the expected library call with the literal
parameter values interpolated into it. -/
theorem C2_recognized_steps_deterministic_and_literal :
    (∀ (t : String) (p : ActionParams) (ts ts' : Nat),
      convertActionToStep ⟨t, p, ts⟩ = convertActionToStep ⟨t, p, ts'⟩)
    ∧ (∀ (p : ActionParams) (ts : Nat) (u : String), p.url = some u →
        ∃ step, convertActionToStep ⟨"playwright_navigate", p, ts⟩ = some step
          ∧ strContains step ("page.goto(\x27" ++ u ++ "\x27"))
    ∧ (∀ (p : ActionParams) (ts : Nat) (sel v : String),
        p.selector = some sel → p.value = some v →
        ∃ step, convertActionToStep ⟨"playwright_fill", p, ts⟩ = some step
          ∧ strContains step ("page.fill(\x27" ++ sel ++ "\x27, \x27" ++ v ++ "\x27)"))
    ∧ (∀ (p : ActionParams) (ts : Nat) (sel : String), p.selector = some sel →
        ∃ step, convertActionToStep ⟨"playwright_click", p, ts⟩ = some step
          ∧ strContains step ("page.click(\x27" ++ sel ++ "\x27)"))
    ∧ (∀ (p : ActionParams) (ts : Nat) (n : String), p.name = some n →
        ∃ step, convertActionToStep ⟨"playwright_screenshot", p, ts⟩ = some step
          ∧ strContains step ("page.screenshot(\x7b path: \x27" ++ n ++ ".png\x27"))
    ∧ (∀ (p : ActionParams) (ts : Nat) (u i : String),
        p.url = some u → p.id = some i →
        ∃ step, convertActionToStep ⟨"playwright_expect_response", p, ts⟩ = some step
          ∧ strContains step ("page.waitForResponse(\x27" ++ u ++ "\x27)")
          ∧ strContains step ("const " ++ i ++ "Response"))
    ∧ (∀ (p : ActionParams) (ts : Nat) (i v : String),
        p.id = some i → p.value = some v → ¬ v = "" →
        ∃ step, convertActionToStep ⟨"playwright_assert_response", p, ts⟩ = some step
          ∧ strContains step ("expect(responseText).toContain(\x27" ++ v ++ "\x27)"))
    ∧ (∀ (p : ActionParams) (ts : Nat) (i : String),
        p.id = some i → p.value = none →
        ∃ step, convertActionToStep ⟨"playwright_assert_response", p, ts⟩ = some step
          ∧ strContains step ("expect(" ++ i ++ "Response.ok()).toBeTruthy()"))
    ∧ (∀ (p : ActionParams) (ts : Nat) (sel : String), p.selector = some sel →
        ∃ step, convertActionToStep ⟨"playwright_hover", p, ts⟩ = some step
          ∧ strContains step ("page.hover(\x27" ++ sel ++ "\x27)"))
    ∧ (∀ (p : ActionParams) (ts : Nat) (sel v : String),
        p.selector = some sel → p.value = some v →
        ∃ step, convertActionToStep ⟨"playwright_select", p, ts⟩ = some step
          ∧ strContains step ("page.selectOption(\x27" ++ sel ++ "\x27, \x27" ++ v ++ "\x27)"))
    ∧ (∀ (p : ActionParams) (ts : Nat) (ua : String), p.userAgent = some ua →
        ∃ step, convertActionToStep ⟨"playwright_custom_user_agent", p, ts⟩ = some step
          ∧ strContains step ("context.setUserAgent(\x27" ++ ua ++ "\x27)")) := by
  refine ⟨?_, ?_, ?_, ?_, ?_, ?_, ?_, ?_, ?_, ?_, ?_⟩
  · intro t p ts ts'
    rfl
  · intro p ts u hu
    refine ⟨_, rfl, ?_⟩
    simp only [generateNavigateStep, hu, interp]
    exact strContains_mid1' "\n    // Navigate to URL\n    await " "page.goto(\x27"
      u "\x27" _ ");" _ (by decide)
  · intro p ts sel v hs hv
    refine ⟨_, rfl, ?_⟩
    simp only [generateFillStep, hs, hv, interp]
    exact strContains_mid2 "\n    // Fill input field\n    await " "page.fill(\x27"
      sel "\x27, \x27" v "\x27)" ";" _ _ (by decide) (by decide)
  · intro p ts sel hs
    refine ⟨_, rfl, ?_⟩
    simp only [generateClickStep, hs, interp]
    exact strContains_mid1 "\n    // Click element\n    await " "page.click(\x27"
      sel "\x27)" ";" _ _ (by decide) (by decide)
  · intro p ts n hn
    refine ⟨_, rfl, ?_⟩
    simp only [generateScreenshotStep, hn, interp]
    exact strContains_mid1' "\n    // Take screenshot\n    await "
      "page.screenshot(\x7b path: \x27" n ".png\x27" _ " \x7d);" _ (by decide)
  · intro p ts u i hu hi
    refine ⟨_, rfl, ?_, ?_⟩
    · simp only [generateExpectResponseStep, hu, hi, interp]
      exact strContains_midLate "\n    // Wait for response\n    const " i
        "Response = " "page.waitForResponse(\x27" u "\x27)" ";" _ _
        (by decide) (by decide)
    · simp only [generateExpectResponseStep, hu, hi, interp]
      exact strContains_midEarly "\n    // Wait for response\n    " "const " i
        "Response" " = page.waitForResponse(\x27" u "\x27);" _ _
        (by decide) (by decide)
  · intro p ts i v hi hv hne
    refine ⟨_, rfl, ?_⟩
    simp only [generateAssertResponseStep, hi, hv, interp, truthyOpt]
    rw [if_pos (by simp [hne])]
    have hflat :
        ("\n    // Assert response" : String)
            ++ ("\n    const responseText = await " ++ i
              ++ "Response.text();\n    expect(responseText).toContain(\x27"
              ++ v ++ "\x27);")
          = ("\n    // Assert response" ++ "\n    const responseText = await ")
            ++ i ++ "Response.text();\n    expect(responseText).toContain(\x27"
            ++ v ++ "\x27);" := by
      simp only [String.append_assoc]
    rw [hflat]
    exact strContains_midLate
      ("\n    // Assert response" ++ "\n    const responseText = await ") i
      "Response.text();\n    " "expect(responseText).toContain(\x27" v "\x27)" ";" _ _
      (by decide) (by decide)
  · intro p ts i hi hv
    refine ⟨_, rfl, ?_⟩
    simp only [generateAssertResponseStep, hi, hv, interp, truthyOpt]
    rw [if_neg (by simp)]
    have hflat :
        ("\n    // Assert response" : String)
            ++ ("\n    expect(" ++ i ++ "Response.ok()).toBeTruthy();")
          = ("\n    // Assert response" ++ "\n    expect(") ++ i
            ++ "Response.ok()).toBeTruthy();" := by
      simp only [String.append_assoc]
    rw [hflat]
    exact strContains_mid1 ("\n    // Assert response" ++ "\n    ") "expect(" i
      "Response.ok()).toBeTruthy()" ";" _ _ (by decide) (by decide)
  · intro p ts sel hs
    refine ⟨_, rfl, ?_⟩
    simp only [generateHoverStep, hs, interp]
    exact strContains_mid1 "\n    // Hover over element\n    await " "page.hover(\x27"
      sel "\x27)" ";" _ _ (by decide) (by decide)
  · intro p ts sel v hs hv
    refine ⟨_, rfl, ?_⟩
    simp only [generateSelectStep, hs, hv, interp]
    exact strContains_mid2 "\n    // Select option\n    await " "page.selectOption(\x27"
      sel "\x27, \x27" v "\x27)" ";" _ _ (by decide) (by decide)
  · intro p ts ua hua
    refine ⟨_, rfl, ?_⟩
    simp only [generateCustomUserAgentStep, hua, interp]
    exact strContains_mid1 "\n    // Set custom user agent\n    await "
      "context.setUserAgent(\x27" ua "\x27)" ";" _ _ (by decide) (by decide)

/-- C2 witness: the claim instantiated at a concrete click action. -/
theorem C2_witness :
    ∃ step, convertActionToStep ⟨"playwright_click", { selector := some "#b" }, 5⟩ = some step
      ∧ strContains step ("page.click(\x27" ++ "#b" ++ "\x27)") :=
  C2_recognized_steps_deterministic_and_literal.2.2.2.1 { selector := some "#b" } 5 "#b" rfl

/-- C3: an action with an unrecognized tool name contributes no step and
does not make generateTest fail: for a structurally valid session the
call succeeds, and the steps of the derived test case are exactly the
in-order renderings of the recognized actions. -/
theorem C3_unrecognized_actions_skipped (opts : CodegenOptions) (cwd : String)
    (sd : RawSessionData) (acts : List CodegenAction)
    (hacts : sd.actions = some acts) (hid : ¬ sd.id = "") :
    (∃ r, generateTest opts cwd (some sd) = .ok r)
    ∧ (createTestCase opts sd.startTime acts).steps = acts.filterMap convertActionToStep
    ∧ (∀ a : CodegenAction, ¬ a.toolName ∈ recognizedTools → convertActionToStep a = none)
    ∧ (∀ a : CodegenAction, a.toolName ∈ recognizedTools →
        (convertActionToStep a).isSome = true) := by
  refine ⟨?_, createTestCase_steps opts sd.startTime acts, ?_, ?_⟩
  · exact ⟨_, by simp [generateTest, hacts, getOutputFilePath, hid]; rfl⟩
  · intro a ha
    simp only [recognizedTools, List.mem_cons, List.not_mem_nil, or_false, not_or] at ha
    obtain ⟨n1, n2, n3, n4, n5, n6, n7, n8, n9⟩ := ha
    simp [convertActionToStep, n1, n2, n3, n4, n5, n6, n7, n8, n9]
  · intro a ha
    simp only [recognizedTools, List.mem_cons, List.not_mem_nil, or_false] at ha
    rcases ha with h | h | h | h | h | h | h | h | h <;>
      (simp only [convertActionToStep, h]; rfl)

/-- C3 witness: a session holding one unrecognized action generates
successfully and the action renders to nothing. -/
theorem C3_witness :
    (∃ r, generateTest DEFAULT_OPTIONS "/w"
        (some ⟨"s1", 0, some [⟨"playwright_wait", {}, 0⟩]⟩) = .ok r)
    ∧ convertActionToStep ⟨"playwright_wait", {}, 0⟩ = none :=
  ⟨(C3_unrecognized_actions_skipped DEFAULT_OPTIONS "/w"
      ⟨"s1", 0, some [⟨"playwright_wait", {}, 0⟩]⟩ [⟨"playwright_wait", {}, 0⟩]
      rfl (by decide)).1,
   (C3_unrecognized_actions_skipped DEFAULT_OPTIONS "/w"
      ⟨"s1", 0, some [⟨"playwright_wait", {}, 0⟩]⟩ [⟨"playwright_wait", {}, 0⟩]
      rfl (by decide)).2.2.1 ⟨"playwright_wait", {}, 0⟩ (by decide)⟩

/-- C4 counterexample: an options object with the non-string (but
falsy) outputPath 0 is accepted by the constructor validation without
raising, so the constructor does not throw for every ill-typed
outputPath. -/
theorem C4_counterexample :
    (JSVal.num 0).isString = false
    ∧ validateOptions { outputPath := JSVal.num 0 } = .ok () :=
  ⟨rfl, rfl⟩

/-- C4 amended: the constructor validation accepts an options object
exactly when every truthy outputPath or testNamePrefix is a string,
every defined includeComments is a boolean, every defined language is
one of the two dialect strings and every defined template is one of the
two template strings (falsy ill-typed outputPath or testNamePrefix
values are accepted); a truthy ill-typed outputPath raises with the
descriptive message; and generateTest rejects a null session, a
non-array actions field, and a falsy session id, each with its
descriptive message. -/
theorem C4_amended_validation_and_session_errors :
    (∀ o : RawCodegenOptions, validateOptions o = .ok () ↔
        ((o.outputPath.truthy = true → o.outputPath.isString = true)
          ∧ (o.testNamePrefix.truthy = true → o.testNamePrefix.isString = true)
          ∧ (¬ o.includeComments = JSVal.undef → o.includeComments.isBool = true)
          ∧ (¬ o.language = JSVal.undef →
              o.language = JSVal.str "typescript" ∨ o.language = JSVal.str "javascript")
          ∧ (¬ o.template = JSVal.undef →
              o.template = JSVal.str "plain" ∨ o.template = JSVal.str "pom")))
    ∧ (∀ o : RawCodegenOptions, o.outputPath.truthy = true →
        o.outputPath.isString = false →
        validateOptions o = .error "outputPath must be a string")
    ∧ (∀ (opts : CodegenOptions) (cwd : String),
        generateTest opts cwd none = .error "Invalid session data")
    ∧ (∀ (opts : CodegenOptions) (cwd : String) (sd : RawSessionData),
        sd.actions = none →
        generateTest opts cwd (some sd) = .error "Invalid session data")
    ∧ (∀ (opts : CodegenOptions) (cwd : String) (sd : RawSessionData) acts,
        sd.actions = some acts → sd.id = "" →
        generateTest opts cwd (some sd) = .error "Session ID is required") := by
  refine ⟨?_, ?_, ?_, ?_, ?_⟩
  · intro o
    unfold validateOptions
    split_ifs with h1 h2 h3 h4 h5
    · simp only [Bool.and_eq_true, Bool.not_eq_true'] at h1
      constructor
      · intro h; exact absurd h (by simp)
      · rintro ⟨p1, -, -, -, -⟩
        exact absurd (p1 h1.1) (by simp [h1.2])
    · simp only [Bool.and_eq_true, Bool.not_eq_true'] at h2
      constructor
      · intro h; exact absurd h (by simp)
      · rintro ⟨-, p2, -, -, -⟩
        exact absurd (p2 h2.1) (by simp [h2.2])
    · simp only [Bool.and_eq_true, Bool.not_eq_true', beq_eq_false_iff_ne, ne_eq] at h3
      constructor
      · intro h; exact absurd h (by simp)
      · rintro ⟨-, -, p3, -, -⟩
        exact absurd (p3 h3.1) (by simp [h3.2])
    · simp only [Bool.and_eq_true, Bool.not_eq_true', beq_eq_false_iff_ne, ne_eq] at h4
      constructor
      · intro h; exact absurd h (by simp)
      · rintro ⟨-, -, -, p4, -⟩
        rcases p4 h4.1.1 with h | h
        · exact absurd h h4.1.2
        · exact absurd h h4.2
    · simp only [Bool.and_eq_true, Bool.not_eq_true', beq_eq_false_iff_ne, ne_eq] at h5
      constructor
      · intro h; exact absurd h (by simp)
      · rintro ⟨-, -, -, -, p5⟩
        rcases p5 h5.1.1 with h | h
        · exact absurd h h5.1.2
        · exact absurd h h5.2
    · constructor
      · intro _
        refine ⟨?_, ?_, ?_, ?_, ?_⟩
        · intro ht
          by_contra hns
          exact h1 (by simp [ht, Bool.eq_false_iff.mpr hns])
        · intro ht
          by_contra hns
          exact h2 (by simp [ht, Bool.eq_false_iff.mpr hns])
        · intro hne
          by_contra hns
          exact h3 (by simp [hne, Bool.eq_false_iff.mpr hns])
        · intro hne
          by_contra hor
          push_neg at hor
          exact h4 (by simp [hne, hor.1, hor.2])
        · intro hne
          by_contra hor
          push_neg at hor
          exact h5 (by simp [hne, hor.1, hor.2])
      · intro _
        rfl
  · intro o ht hns
    unfold validateOptions
    rw [if_pos (by simp [ht, hns])]
  · intro opts cwd
    rfl
  · intro opts cwd sd h
    simp [generateTest, h]
  · intro opts cwd sd acts hacts hid
    simp [generateTest, hacts, getOutputFilePath, hid]

/-- C4 witness: the session-shape errors at concrete inputs. -/
theorem C4_witness :
    generateTest DEFAULT_OPTIONS "/w" (some ⟨"", 0, some []⟩)
        = .error "Session ID is required"
    ∧ validateOptions { outputPath := JSVal.num 7 }
        = .error "outputPath must be a string" :=
  ⟨C4_amended_validation_and_session_errors.2.2.2.2 DEFAULT_OPTIONS "/w"
      ⟨"", 0, some []⟩ [] rfl rfl,
   C4_amended_validation_and_session_errors.2.1 { outputPath := JSVal.num 7 } rfl rfl⟩

/-- C7: for a valid session, page-object mode attaches exactly two
files, the AppPage source under pages beneath the output path followed
by the run configuration; plain mode attaches no files field. -/
theorem C7_pom_two_files_plain_none (opts : CodegenOptions) (cwd : String)
    (sd : RawSessionData) (acts : List CodegenAction)
    (hacts : sd.actions = some acts) (hid : ¬ sd.id = "") :
    (opts.template = Template.pom →
      ∃ cfg, generatePlaywrightConfig opts cwd = some cfg
        ∧ (generateTest opts cwd (some sd)).map (fun r => r.files)
            = .ok (some [generatePageObject opts cwd acts, cfg])
        ∧ (generatePageObject opts cwd acts).path
            = pathResolve cwd [opts.outputPath, "pages",
                "AppPage." ++ (if opts.language = Lang.typescript then "ts" else "js")]
        ∧ cfg.path = pathResolve cwd
            [if opts.language = Lang.typescript then "playwright.config.ts"
             else "playwright.config.js"])
    ∧ (opts.template = Template.plain →
        (generateTest opts cwd (some sd)).map (fun r => r.files) = .ok none) := by
  have hfp : ∃ fp, getOutputFilePath opts cwd sd.id = .ok fp :=
    ⟨_, by simp [getOutputFilePath, hid]; rfl⟩
  obtain ⟨fp, hfp⟩ := hfp
  constructor
  · intro hpom
    refine ⟨_, rfl, ?_, ?_, ?_⟩
    · simp [generateTest, hacts, hfp, hpom, generatePlaywrightConfig, Except.map]
    · simp [generatePageObject]
    · simp [generatePlaywrightConfig]
  · intro hplain
    have hnotpom : ¬ opts.template = Template.pom := by
      rw [hplain]; intro h; exact absurd h (by decide)
    simp [generateTest, hacts, hfp, hnotpom, Except.map]

/-- C7 witness: the claim instantiated at a concrete one-action session
in page-object mode. -/
theorem C7_witness :
    ∃ cfg, generatePlaywrightConfig DEFAULT_OPTIONS "/w" = some cfg
      ∧ (generateTest DEFAULT_OPTIONS "/w"
            (some ⟨"s1", 0, some [⟨"playwright_click", { selector := some "#a" }, 0⟩]⟩)).map
            (fun r => r.files)
          = .ok (some [generatePageObject DEFAULT_OPTIONS "/w"
              [⟨"playwright_click", { selector := some "#a" }, 0⟩], cfg])
      ∧ (generatePageObject DEFAULT_OPTIONS "/w"
            [⟨"playwright_click", { selector := some "#a" }, 0⟩]).path
          = pathResolve "/w" [DEFAULT_OPTIONS.outputPath, "pages",
              "AppPage." ++ (if DEFAULT_OPTIONS.language = Lang.typescript then "ts" else "js")]
      ∧ cfg.path = pathResolve "/w"
          [if DEFAULT_OPTIONS.language = Lang.typescript then "playwright.config.ts"
           else "playwright.config.js"] :=
  (C7_pom_two_files_plain_none DEFAULT_OPTIONS "/w"
      ⟨"s1", 0, some [⟨"playwright_click", { selector := some "#a" }, 0⟩]⟩
      [⟨"playwright_click", { selector := some "#a" }, 0⟩]
      rfl (by decide)).1 rfl

/-- C8: for a valid session the output file path is the resolution,
under the configured output path, of the sanitized lowercased prefix,
an underscore, the session id and the fixed extension .spec.ts,
whatever the language option is. -/
theorem C8_output_file_path (opts : CodegenOptions) (cwd : String)
    (sd : RawSessionData) (acts : List CodegenAction)
    (hacts : sd.actions = some acts) (hid : ¬ sd.id = "") :
    (generateTest opts cwd (some sd)).map (fun r => r.filePath)
      = .ok (pathResolve cwd
          [opts.outputPath,
            sanitizeName opts.testNamePrefix ++ "_" ++ sd.id ++ ".spec.ts"]) := by
  have hfp : getOutputFilePath opts cwd sd.id
      = .ok (pathResolve cwd
          [opts.outputPath,
            sanitizeName opts.testNamePrefix ++ "_" ++ sd.id ++ ".spec.ts"]) := by
    simp [getOutputFilePath, hid]
  simp [generateTest, hacts, hfp, Except.map]

/-- C8 witness: the path equation instantiated at a concrete session. -/
theorem C8_witness :
    (generateTest DEFAULT_OPTIONS "/w" (some ⟨"s1", 0, some []⟩)).map (fun r => r.filePath)
      = .ok (pathResolve "/w"
          [DEFAULT_OPTIONS.outputPath,
            sanitizeName DEFAULT_OPTIONS.testNamePrefix ++ "_" ++ "s1" ++ ".spec.ts"]) :=
  C8_output_file_path DEFAULT_OPTIONS "/w" ⟨"s1", 0, some []⟩ [] rfl (by decide)

/-- C10: an options object with empty-string outputPath (and
testNamePrefix) passes validation, the empty strings override the
defaults in the merged options, and generated paths are then resolved
against the empty path instead of the default tests directory. -/
theorem C10_empty_string_options_override :
    validateOptions { outputPath := JSVal.str "", testNamePrefix := JSVal.str "" } = .ok ()
    ∧ (mergeOptions { outputPath := JSVal.str "", testNamePrefix := JSVal.str "" }).outputPath = ""
    ∧ (mergeOptions { outputPath := JSVal.str "", testNamePrefix := JSVal.str "" }).testNamePrefix = ""
    ∧ (∀ (cwd id : String), ¬ id = "" →
        getOutputFilePath (mergeOptions { outputPath := JSVal.str "" }) cwd id
          = .ok (pathResolve cwd ["mcp_" ++ id ++ ".spec.ts"])
        ∧ getOutputFilePath DEFAULT_OPTIONS cwd id
          = .ok (pathResolve cwd ["tests", "mcp_" ++ id ++ ".spec.ts"]))
    ∧ (∀ acts, (generatePageObject (mergeOptions { outputPath := JSVal.str "" }) "/w" acts).path
        = pathResolve "/w" ["pages", "AppPage.ts"]) := by
  refine ⟨rfl, rfl, rfl, ?_, ?_⟩
  · intro cwd id hid
    constructor
    · unfold getOutputFilePath
      rw [if_neg hid]
      rfl
    · unfold getOutputFilePath
      rw [if_neg hid]
      rfl
  · intro acts
    rfl

/-- C10 witness: the path consequences instantiated at a concrete id. -/
theorem C10_witness :
    getOutputFilePath (mergeOptions { outputPath := JSVal.str "" }) "/w" "s1"
        = .ok (pathResolve "/w" ["mcp_" ++ "s1" ++ ".spec.ts"])
    ∧ getOutputFilePath DEFAULT_OPTIONS "/w" "s1"
        = .ok (pathResolve "/w" ["tests", "mcp_" ++ "s1" ++ ".spec.ts"]) :=
  C10_empty_string_options_override.2.2.2.1 "/w" "s1" (by decide)

/-- C9: deriveLocatorName applies its rules in the fixed priority
order id token, data-attribute value, class token, fixed fallback; the
id and class matchers succeed exactly on strings containing a marked
token, and a successful match captures a nonempty word-character run
sitting right after its marker inside the string. -/
theorem C9_locator_name_priority (s : String) :
    ((scanToken '#' s.data).isSome = true ↔ hasMarkedToken '#' s)
    ∧ ((scanToken '.' s.data).isSome = true ↔ hasMarkedToken '.' s)
    ∧ (∀ x, scanToken '#' s.data = some x →
        deriveLocatorName s = x ++ "Locator"
        ∧ ∃ l r, s.data = l ++ '#' :: (x.data ++ r)
            ∧ ¬ x.data = [] ∧ x.data.all isSelWord = true)
    ∧ (scanToken '#' s.data = none → ∀ v, scanDataAttr s.data = some v →
        deriveLocatorName s = v ++ "Locator")
    ∧ (scanToken '#' s.data = none → scanDataAttr s.data = none →
        ∀ c, scanToken '.' s.data = some c →
          deriveLocatorName s = c ++ "Locator"
          ∧ ∃ l r, s.data = l ++ '.' :: (c.data ++ r)
              ∧ ¬ c.data = [] ∧ c.data.all isSelWord = true)
    ∧ (scanToken '#' s.data = none → scanDataAttr s.data = none →
        scanToken '.' s.data = none → deriveLocatorName s = "elementLocator") := by
  refine ⟨scanToken_isSome_iff '#' s.data, scanToken_isSome_iff '.' s.data,
    ?_, ?_, ?_, ?_⟩
  · intro x hx
    exact ⟨by simp [deriveLocatorName, hx], scanToken_sound '#' s.data x hx⟩
  · intro h0 v hv
    simp [deriveLocatorName, h0, hv]
  · intro h0 hd c hc
    exact ⟨by simp [deriveLocatorName, h0, hd, hc], scanToken_sound '.' s.data c hc⟩
  · intro h0 hd hcl
    simp [deriveLocatorName, h0, hd, hcl]

/-- C9 witness: the id rule instantiated at a concrete selector. -/
theorem C9_witness :
    deriveLocatorName "#login-btn" = "login-btn" ++ "Locator"
    ∧ ∃ l r, ("#login-btn" : String).data
        = l ++ '#' :: (("login-btn" : String).data ++ r)
      ∧ ¬ ("login-btn" : String).data = []
      ∧ ("login-btn" : String).data.all isSelWord = true :=
  (C9_locator_name_priority "#login-btn").2.2.1 "login-btn" (by decide)

/-- A value containing no quote, backslash or newline interpolates into
a well-formed single-quoted literal. -/
lemma wellFormedSQ_of_clean (s : String) (h : cleanParam s = true) :
    wellFormedSQ ("\x27" ++ s ++ "\x27") = true := by
  have hd : ("\x27" ++ s ++ "\x27").data = '\x27' :: (s.data ++ ['\x27']) := rfl
  unfold wellFormedSQ
  rw [hd]
  simp only [Bool.and_eq_true, decide_eq_true_eq, Bool.not_eq_true',
    decide_eq_false_iff_not, List.getLast?_concat, List.dropLast_concat]
  refine ⟨⟨⟨rfl, by simp⟩, rfl⟩, ?_⟩
  exact h

set_option maxRecDepth 4096 in
/-- C1 counterexample: a fill action whose value holds a single quote
produces, through generateTest, test code whose interpolated literal is
not well-formed, so the generated code is not syntactically valid. -/
theorem C1_counterexample :
    wellFormedSQ ("\x27" ++ "a\x27b" ++ "\x27") = false
    ∧ ∃ r, generateTest { DEFAULT_OPTIONS with template := Template.plain } "/w"
          (some ⟨"s1", 0, some [⟨"playwright_fill",
              { selector := some "q", value := some "a\x27b" }, 0⟩]⟩) = .ok r
        ∧ strContains r.testCode ("page.fill(\x27q\x27, \x27a\x27b\x27);") := by
  refine ⟨by decide, ⟨_, rfl, ?_⟩⟩
  decide

/-- C1 amended: for recorded parameter values free of single quotes,
backslashes and newlines, the literals interpolated into the fill and
click steps are well-formed single-quoted literals occurring in the
step text; with a quote in a value the interpolated literal is
ill-formed, since no escaping is performed. -/
theorem C1_amended_clean_values_wellformed
    (p : ActionParams) (ts : Nat) (sel v : String)
    (hs : p.selector = some sel) (hv : p.value = some v)
    (hcs : cleanParam sel = true) (hcv : cleanParam v = true) :
    wellFormedSQ ("\x27" ++ sel ++ "\x27") = true
    ∧ wellFormedSQ ("\x27" ++ v ++ "\x27") = true
    ∧ (∃ step, convertActionToStep ⟨"playwright_fill", p, ts⟩ = some step
        ∧ strContains step ("\x27" ++ sel ++ "\x27")
        ∧ strContains step ("\x27" ++ v ++ "\x27"))
    ∧ (∃ step, convertActionToStep ⟨"playwright_click", p, ts⟩ = some step
        ∧ strContains step ("\x27" ++ sel ++ "\x27")) := by
  refine ⟨wellFormedSQ_of_clean sel hcs, wellFormedSQ_of_clean v hcv, ?_, ?_⟩
  · refine ⟨_, rfl, ?_, ?_⟩
    · simp only [generateFillStep, hs, hv, interp]
      exact strContains_midEarly "\n    // Fill input field\n    await page.fill("
        "\x27" sel "\x27" ", \x27" v "\x27);" _ _ (by decide) (by decide)
    · simp only [generateFillStep, hs, hv, interp]
      exact strContains_midLate "\n    // Fill input field\n    await page.fill(\x27"
        sel "\x27, " "\x27" v "\x27" ");" _ _ (by decide) (by decide)
  · refine ⟨_, rfl, ?_⟩
    simp only [generateClickStep, hs, interp]
    exact strContains_mid1 "\n    // Click element\n    await page.click("
      "\x27" sel "\x27" ");" _ _ (by decide) (by decide)

/-- C1 witness: the amended claim instantiated at clean values. -/
theorem C1_witness :
    wellFormedSQ ("\x27" ++ "q" ++ "\x27") = true
    ∧ wellFormedSQ ("\x27" ++ "ok" ++ "\x27") = true
    ∧ (∃ step, convertActionToStep
          ⟨"playwright_fill", { selector := some "q", value := some "ok" }, 0⟩ = some step
        ∧ strContains step ("\x27" ++ "q" ++ "\x27")
        ∧ strContains step ("\x27" ++ "ok" ++ "\x27"))
    ∧ (∃ step, convertActionToStep
          ⟨"playwright_click", { selector := some "q", value := some "ok" }, 0⟩ = some step
        ∧ strContains step ("\x27" ++ "q" ++ "\x27")) :=
  C1_amended_clean_values_wellformed
    { selector := some "q", value := some "ok" } 0 "q" "ok"
    rfl rfl (by decide) (by decide)

/-- C5: in both page-state tools the guards run in the order page
exists, browser connected, page not closed; the first failing guard
yields a structured failure whose text contains the matching substring,
with no library call issued. -/
theorem C5_guard_order_and_failure_messages :
    (∀ ctx : ToolContext, ctx.page = none →
      (visibleTextExecute ctx).1.isError = true
      ∧ strContains (visibleTextExecute ctx).1.text "Page is not available"
      ∧ (visibleTextExecute ctx).2 = []
      ∧ (visibleHtmlExecute ctx).1.isError = true
      ∧ strContains (visibleHtmlExecute ctx).1.text "Page is not available"
      ∧ (visibleHtmlExecute ctx).2 = [])
    ∧ (∀ (ctx : ToolContext) (pg : PageRef),
        ctx.page = some pg → ctx.browserConnected = false →
      (visibleTextExecute ctx).1.isError = true
      ∧ strContains (visibleTextExecute ctx).1.text "Browser is not connected"
      ∧ (visibleTextExecute ctx).2 = []
      ∧ (visibleHtmlExecute ctx).1.isError = true
      ∧ strContains (visibleHtmlExecute ctx).1.text "Browser is not connected"
      ∧ (visibleHtmlExecute ctx).2 = [])
    ∧ (∀ (ctx : ToolContext) (pg : PageRef),
        ctx.page = some pg → ctx.browserConnected = true → pg.closed = true →
      (visibleTextExecute ctx).1.isError = true
      ∧ strContains (visibleTextExecute ctx).1.text
          "Page is not available or has been closed"
      ∧ (visibleTextExecute ctx).2 = []
      ∧ (visibleHtmlExecute ctx).1.isError = true
      ∧ strContains (visibleHtmlExecute ctx).1.text
          "Page is not available or has been closed"
      ∧ (visibleHtmlExecute ctx).2 = []) := by
  refine ⟨?_, ?_, ?_⟩
  · intro ctx hp
    have ht : visibleTextExecute ctx
        = ({ text := "Page is not available", isError := true }, []) := by
      simp [visibleTextExecute, hp]
    have hh : visibleHtmlExecute ctx
        = ({ text := "Page is not available", isError := true }, []) := by
      simp [visibleHtmlExecute, hp]
    exact ⟨by rw [ht], by rw [ht]; decide, by rw [ht],
      by rw [hh], by rw [hh]; decide, by rw [hh]⟩
  · intro ctx pg hp hbc
    have ht : visibleTextExecute ctx
        = ({ text := "Browser is not connected", isError := true }, []) := by
      simp [visibleTextExecute, hp, hbc]
    have hh : visibleHtmlExecute ctx
        = ({ text := "Browser is not connected", isError := true }, []) := by
      simp [visibleHtmlExecute, hp, hbc]
    exact ⟨by rw [ht], by rw [ht]; decide, by rw [ht],
      by rw [hh], by rw [hh]; decide, by rw [hh]⟩
  · intro ctx pg hp hbc hcl
    have ht : visibleTextExecute ctx
        = ({ text := "Page is not available or has been closed", isError := true }, []) := by
      simp [visibleTextExecute, hp, hbc, hcl]
    have hh : visibleHtmlExecute ctx
        = ({ text := "Page is not available or has been closed", isError := true }, []) := by
      simp [visibleHtmlExecute, hp, hbc, hcl]
    exact ⟨by rw [ht], by rw [ht]; decide, by rw [ht],
      by rw [hh], by rw [hh]; decide, by rw [hh]⟩

/-- C5 witness: the three guards at concrete contexts. -/
theorem C5_witness :
    ((visibleTextExecute { page := none, browserConnected := true }).1.isError = true
      ∧ strContains (visibleTextExecute { page := none, browserConnected := true }).1.text
          "Page is not available"
      ∧ (visibleTextExecute { page := none, browserConnected := true }).2 = []
      ∧ (visibleHtmlExecute { page := none, browserConnected := true }).1.isError = true
      ∧ strContains (visibleHtmlExecute { page := none, browserConnected := true }).1.text
          "Page is not available"
      ∧ (visibleHtmlExecute { page := none, browserConnected := true }).2 = [])
    ∧ ((visibleTextExecute
          { page := some { closed := false, evalOutcome := .ok "t", contentOutcome := .ok "h" },
            browserConnected := false }).1.isError = true
      ∧ strContains (visibleTextExecute
          { page := some { closed := false, evalOutcome := .ok "t", contentOutcome := .ok "h" },
            browserConnected := false }).1.text "Browser is not connected"
      ∧ (visibleTextExecute
          { page := some { closed := false, evalOutcome := .ok "t", contentOutcome := .ok "h" },
            browserConnected := false }).2 = []
      ∧ (visibleHtmlExecute
          { page := some { closed := false, evalOutcome := .ok "t", contentOutcome := .ok "h" },
            browserConnected := false }).1.isError = true
      ∧ strContains (visibleHtmlExecute
          { page := some { closed := false, evalOutcome := .ok "t", contentOutcome := .ok "h" },
            browserConnected := false }).1.text "Browser is not connected"
      ∧ (visibleHtmlExecute
          { page := some { closed := false, evalOutcome := .ok "t", contentOutcome := .ok "h" },
            browserConnected := false }).2 = []) :=
  ⟨C5_guard_order_and_failure_messages.1 { page := none, browserConnected := true } rfl,
   C5_guard_order_and_failure_messages.2.1
     { page := some { closed := false, evalOutcome := .ok "t", contentOutcome := .ok "h" },
       browserConnected := false }
     { closed := false, evalOutcome := .ok "t", contentOutcome := .ok "h" } rfl rfl⟩

/-- C6: with all preconditions satisfied, a successful library call
yields a non-error result whose text contains the returned content, and
a thrown library error yields a failure whose text contains the
context-specific prefix and the thrown message. -/
theorem C6_success_and_error_wrapping :
    (∀ (ctx : ToolContext) (pg : PageRef) (c : String),
        ctx.page = some pg → ctx.browserConnected = true → pg.closed = false →
        pg.evalOutcome = .ok c →
      (visibleTextExecute ctx).1.isError = false
      ∧ strContains (visibleTextExecute ctx).1.text c
      ∧ (visibleTextExecute ctx).2 = [LibCall.evaluate])
    ∧ (∀ (ctx : ToolContext) (pg : PageRef) (m : String),
        ctx.page = some pg → ctx.browserConnected = true → pg.closed = false →
        pg.evalOutcome = .error m →
      (visibleTextExecute ctx).1.isError = true
      ∧ strContains (visibleTextExecute ctx).1.text "Failed to get visible text content"
      ∧ strContains (visibleTextExecute ctx).1.text m)
    ∧ (∀ (ctx : ToolContext) (pg : PageRef) (c : String),
        ctx.page = some pg → ctx.browserConnected = true → pg.closed = false →
        pg.contentOutcome = .ok c →
      (visibleHtmlExecute ctx).1.isError = false
      ∧ strContains (visibleHtmlExecute ctx).1.text c
      ∧ (visibleHtmlExecute ctx).2 = [LibCall.pageContent])
    ∧ (∀ (ctx : ToolContext) (pg : PageRef) (m : String),
        ctx.page = some pg → ctx.browserConnected = true → pg.closed = false →
        pg.contentOutcome = .error m →
      (visibleHtmlExecute ctx).1.isError = true
      ∧ strContains (visibleHtmlExecute ctx).1.text "Failed to get visible HTML content"
      ∧ strContains (visibleHtmlExecute ctx).1.text m) := by
  refine ⟨?_, ?_, ?_, ?_⟩
  · intro ctx pg c hp hbc hcl hev
    have ht : visibleTextExecute ctx
        = ({ text := "Visible text content:\n" ++ c, isError := false },
            [LibCall.evaluate]) := by
      simp [visibleTextExecute, hp, hbc, hcl, hev]
    exact ⟨by rw [ht], by rw [ht]; exact strContains_right _ c, by rw [ht]⟩
  · intro ctx pg m hp hbc hcl hev
    have ht : visibleTextExecute ctx
        = ({ text := "Failed to get visible text content: " ++ m, isError := true },
            [LibCall.evaluate]) := by
      simp [visibleTextExecute, hp, hbc, hcl, hev]
    refine ⟨by rw [ht], ?_, by rw [ht]; exact strContains_right _ m⟩
    rw [ht]
    exact strContains_left_of "Failed to get visible text content" ": "
      "Failed to get visible text content: " m (by decide)
  · intro ctx pg c hp hbc hcl hct
    have hh : visibleHtmlExecute ctx
        = ({ text := "HTML content:\n" ++ c, isError := false },
            [LibCall.pageContent]) := by
      simp [visibleHtmlExecute, hp, hbc, hcl, hct]
    exact ⟨by rw [hh], by rw [hh]; exact strContains_right _ c, by rw [hh]⟩
  · intro ctx pg m hp hbc hcl hct
    have hh : visibleHtmlExecute ctx
        = ({ text := "Failed to get visible HTML content: " ++ m, isError := true },
            [LibCall.pageContent]) := by
      simp [visibleHtmlExecute, hp, hbc, hcl, hct]
    refine ⟨by rw [hh], ?_, by rw [hh]; exact strContains_right _ m⟩
    rw [hh]
    exact strContains_left_of "Failed to get visible HTML content" ": "
      "Failed to get visible HTML content: " m (by decide)

/-- C6 witness: a successful and a failing library call at concrete
contexts. -/
theorem C6_witness :
    ((visibleTextExecute { page := some { closed := false, evalOutcome := .ok "Sample visible text content", contentOutcome := .ok "h" }, browserConnected := true }).1.isError = false
      ∧ strContains (visibleTextExecute { page := some { closed := false, evalOutcome := .ok "Sample visible text content", contentOutcome := .ok "h" }, browserConnected := true }).1.text "Sample visible text content"
      ∧ (visibleTextExecute { page := some { closed := false, evalOutcome := .ok "Sample visible text content", contentOutcome := .ok "h" }, browserConnected := true }).2 = [LibCall.evaluate])
    ∧ ((visibleTextExecute { page := some { closed := false, evalOutcome := .error "Evaluation failed", contentOutcome := .ok "h" }, browserConnected := true }).1.isError = true
      ∧ strContains (visibleTextExecute { page := some { closed := false, evalOutcome := .error "Evaluation failed", contentOutcome := .ok "h" }, browserConnected := true }).1.text "Failed to get visible text content"
      ∧ strContains (visibleTextExecute { page := some { closed := false, evalOutcome := .error "Evaluation failed", contentOutcome := .ok "h" }, browserConnected := true }).1.text "Evaluation failed") :=
  ⟨C6_success_and_error_wrapping.1
      { page := some { closed := false, evalOutcome := .ok "Sample visible text content", contentOutcome := .ok "h" }, browserConnected := true }
      { closed := false, evalOutcome := .ok "Sample visible text content", contentOutcome := .ok "h" }
      "Sample visible text content" rfl rfl rfl rfl,
   C6_success_and_error_wrapping.2.1
      { page := some { closed := false, evalOutcome := .error "Evaluation failed", contentOutcome := .ok "h" }, browserConnected := true }
      { closed := false, evalOutcome := .error "Evaluation failed", contentOutcome := .ok "h" }
      "Evaluation failed" rfl rfl rfl rfl⟩

end MCP
